import Mathlib

/-!
Verification of the structured command descriptor engine in
`src/nvim/api/command.c` (nvim_parse_cmd, nvim_cmd, build_cmdline_str,
create_user_command, nvim_buf_get_commands and helpers).

The C code is shallowly embedded: machine integers become `Int`/`Nat`,
C strings become `String`, the API `Object` tagged union becomes an
inductive type, fallible paths return `Except String`.  Functions that
live outside this file's source (find_ex_command, set_cmd_addr_type,
invalid_range, get_cmd_default_range, set_cmd_dflall_range,
set_cmd_count, valid_yank_reg, uc_split_args_iter, commands_array,
find_buffer_by_handle) are taken as explicit parameters, gathered in an
`Externals` record, or — where a claim depends on their behaviour —
modelled from the specification, as marked in their doc comments.
-/

/-- The EX_* command flag bits of `ea.argt` (uint32_t bitmask in C),
embedded as a structure of named booleans.  Field names follow the
EX_ flag names used in `command.c`. -/
structure Argt where
  extra : Bool := false        -- EX_EXTRA
  needarg : Bool := false      -- EX_NEEDARG
  nospc : Bool := false        -- EX_NOSPC
  range : Bool := false        -- EX_RANGE
  count : Bool := false        -- EX_COUNT
  regstr : Bool := false       -- EX_REGSTR
  bang : Bool := false         -- EX_BANG
  dflall : Bool := false       -- EX_DFLALL
  xfile : Bool := false        -- EX_XFILE
  trlbar : Bool := false       -- EX_TRLBAR
  sboxok : Bool := false       -- EX_SBOXOK
  zeror : Bool := false        -- EX_ZEROR
  keepscript : Bool := false   -- EX_KEEPSCRIPT
  preview : Bool := false      -- EX_PREVIEW
deriving Repr, DecidableEq

/-- The `cmd_addr_T` address-type enumeration (ADDR_* in C). -/
inductive AddrType where
  | lines
  | arguments
  | buffers
  | loadedBuffers
  | windows
  | tabs
  | quickfix
  | other
  | addrNone
deriving Repr, DecidableEq

/-- Command identity, as far as `nvim_cmd` distinguishes it:
`CMD_put`, a user command index (CMD_USER / CMD_USER_BUF), or any other
builtin command index. -/
inductive CmdIdx where
  | put
  | user
  | userBuf
  | builtin
deriving Repr, DecidableEq

/-- `IS_USER_CMDIDX(ea.cmdidx)`. -/
def CmdIdx.isUser : CmdIdx → Bool
  | .user => true
  | .userBuf => true
  | _ => false

/-- The API `Object` tagged union (`kObjectType*`), restricted to the
payloads `command.c` inspects. -/
inductive ApiObject where
  | nil
  | boolean (b : Bool)
  | integer (n : Int)
  | float
  | str (s : String)
  | array (xs : List ApiObject)
  | dict
  | luaref
  | buffer (n : Int)
  | window (n : Int)
  | tabpage (n : Int)

/-- `ascii_iswhite(c)` from ascii.h: a space or a tab. -/
def ascii_iswhite (c : Char) : Bool :=
  c = ' ' || c = '\t'

/-- Loop body of `string_iswhite` (command.c lines 746-758), translated
with its early-return structure intact (including the unreachable NUL
break). -/
def string_iswhite_go : List Char → Bool
  | [] => true
  | c :: rest =>
    if !ascii_iswhite c then false
    else if c = Char.ofNat 0 then true
    else string_iswhite_go rest

/-- `string_iswhite(String str)`: true iff the string contains only
whitespace characters. -/
def string_iswhite (s : String) : Bool :=
  string_iswhite_go s.data

/-- Conversion of one element of the `args` array inside `nvim_cmd`
(command.c lines 406-436): Booleans become "1"/"0", handles and
integers become decimal strings, whitespace-only strings and all other
object types are validation errors. -/
def convertArg : ApiObject → Except String String
  | .boolean b => .ok (if b then "1" else "0")
  | .buffer n => .ok (toString n)
  | .window n => .ok (toString n)
  | .tabpage n => .ok (toString n)
  | .integer n => .ok (toString n)
  | .str s =>
    if string_iswhite s then
      .error "String command argument must have at least one non-whitespace character"
    else .ok s
  | _ => .error "Invalid type for command argument"

/-- The conversion loop over all elements of `args`, first error wins. -/
def convertArgs : List ApiObject → Except String (List String)
  | [] => .ok []
  | o :: rest => do
    let s ← convertArg o
    let ss ← convertArgs rest
    .ok (s :: ss)

/-- The argument-count switch of `nvim_cmd` (command.c lines 441-457),
keyed on the EX_EXTRA / EX_NOSPC / EX_NEEDARG bits. -/
def argc_valid (argt : Argt) (n : Nat) : Bool :=
  match argt.extra, argt.nospc, argt.needarg with
  | true, true, true => n == 1
  | true, true, false => n <= 1
  | true, false, true => n >= 1
  | true, false, false => true
  | false, _, _ => n == 0

/-- The whole `args` block of `nvim_cmd` (command.c lines 399-462):
absent key means no conversion and no count check; otherwise the value
must be an array, each element is converted, and the argument count is
checked against the contract. -/
def check_args (argt : Argt) : Option ApiObject → Except String (List String)
  | none => .ok []
  | some o =>
    match o with
    | .array objs => do
      let args ← convertArgs objs
      if argc_valid argt args.length then .ok args
      else .error "Incorrect number of arguments supplied"
    | _ => .error "'args' must be an Array"

/-- The `nargs` option handling of `create_user_command` (command.c
lines 1032-1067) expressed as the five recognized arities; returns the
EX_* bits each arity contributes ('1' / '?' / '+' / '*' / default). -/
inductive Nargs where
  | numZero       -- nargs = 0 (integer): no bits
  | numOne        -- nargs = 1 (integer): EX_EXTRA | EX_NOSPC | EX_NEEDARG
  | star          -- nargs = "*": EX_EXTRA
  | quest         -- nargs = "?": EX_EXTRA | EX_NOSPC
  | plus          -- nargs = "+": EX_EXTRA | EX_NEEDARG
deriving Repr, DecidableEq

/-- EX_* bits contributed by a `nargs` value in `create_user_command`. -/
def nargs_flags : Nargs → Argt
  | .numZero => {}
  | .numOne => { extra := true, nospc := true, needarg := true }
  | .star => { extra := true }
  | .quest => { extra := true, nospc := true }
  | .plus => { extra := true, needarg := true }

/-- The `nargs` reporting block of `nvim_parse_cmd` (command.c lines
190-207): the character describing a contract's arity. -/
def nargs_chr (argt : Argt) : String :=
  if argt.extra then
    if argt.nospc then
      if argt.needarg then "1" else "?"
    else if argt.needarg then "+"
    else "*"
  else "0"

/-- The WSP_* split bits of `cmdmod.cmod_split` used by command.c. -/
structure SplitMod where
  vert : Bool := false    -- WSP_VERT
  hor : Bool := false     -- WSP_HOR
  above : Bool := false   -- WSP_ABOVE
  below : Bool := false   -- WSP_BELOW
  top : Bool := false     -- WSP_TOP
  bot : Bool := false     -- WSP_BOT
deriving Repr, DecidableEq

/-- `cmdmod_T` as populated by `nvim_cmd` (the CMOD_* flag bits as
booleans, `cmod_tab`/`cmod_verbose` as integers with the same +1
encodings as in C, the split bits, and the filter pattern). -/
structure CmdMod where
  silent : Bool := false          -- CMOD_SILENT
  errsilent : Bool := false       -- CMOD_ERRSILENT
  unsilent : Bool := false        -- CMOD_UNSILENT
  sandbox : Bool := false         -- CMOD_SANDBOX
  noautocmd : Bool := false       -- CMOD_NOAUTOCMD
  browse : Bool := false          -- CMOD_BROWSE
  confirm : Bool := false         -- CMOD_CONFIRM
  hide : Bool := false            -- CMOD_HIDE
  keepalt : Bool := false         -- CMOD_KEEPALT
  keepjumps : Bool := false       -- CMOD_KEEPJUMPS
  keepmarks : Bool := false       -- CMOD_KEEPMARKS
  keeppatterns : Bool := false    -- CMOD_KEEPPATTERNS
  lockmarks : Bool := false       -- CMOD_LOCKMARKS
  noswapfile : Bool := false      -- CMOD_NOSWAPFILE
  tab : Int := 0                  -- cmod_tab
  verbose : Int := 0              -- cmod_verbose (0 = unset, n+1 = verbose n)
  split : SplitMod := {}          -- cmod_split
  filter_pat : Option String := none  -- cmod_filter_pat (none = NULL)
  filter_force : Bool := false    -- cmod_filter_force
deriving Repr, DecidableEq

/-- Caller-supplied `mods` dictionary of `nvim_cmd`, after the keydict
step: each field is the raw object for the keys with explicit type
checks in the C code, and an already-coerced boolean for the flags read
through `api_object_to_bool` (whose coercion lives outside this
source file). -/
structure ModsInput where
  filter_pattern : Option ApiObject := none
  filter_force : Bool := false
  tab : Option ApiObject := none
  verbose : Option ApiObject := none
  vertical : Bool := false
  horizontal : Bool := false
  split : Option ApiObject := none
  silent : Bool := false
  emsg_silent : Bool := false
  unsilent : Bool := false
  sandbox : Bool := false
  noautocmd : Bool := false
  browse : Bool := false
  confirm : Bool := false
  hide : Bool := false
  keepalt : Bool := false
  keepjumps : Bool := false
  keepmarks : Bool := false
  keeppatterns : Bool := false
  lockmarks : Bool := false
  noswapfile : Bool := false

/-- `mods.tab` handling (command.c lines 600-607): non-Integer is an
error; a negative integer is silently ignored (cmod_tab stays 0); a
non-negative n stores n+1. -/
def process_tab : Option ApiObject → Except String Int
  | none => .ok 0
  | some (.integer n) => if n >= 0 then .ok (n + 1) else .ok 0
  | some _ => .error "'mods.tab' must be an Integer"

/-- `mods.verbose` handling (command.c lines 609-616), same policy as
`mods.tab`. -/
def process_verbose : Option ApiObject → Except String Int
  | none => .ok 0
  | some (.integer n) => if n >= 0 then .ok (n + 1) else .ok 0
  | some _ => .error "'mods.verbose' must be an Integer"

/-- `mods.split` handling (command.c lines 626-646): empty string does
nothing, the four direction tokens (with the two synonym spellings) set
the corresponding WSP bit, anything else is an error. -/
def process_split (s : SplitMod) : Option ApiObject → Except String SplitMod
  | none => .ok s
  | some (.str str) =>
    if str = "" then .ok s
    else if str = "aboveleft" || str = "leftabove" then .ok { s with above := true }
    else if str = "belowright" || str = "rightbelow" then .ok { s with below := true }
    else if str = "topleft" then .ok { s with top := true }
    else if str = "botright" then .ok { s with bot := true }
    else .error "Invalid value for 'mods.split'"
  | some _ => .error "'mods.split' must be a String"

/-- `mods.filter` handling (command.c lines 571-598): the pattern must
be a string; a filter is recorded iff the pattern is non-empty or the
filter is inverted (regexp compilation is external and not modelled). -/
def process_filter (pat : Option ApiObject) (force : Bool) :
    Except String (Option String × Bool) :=
  match pat with
  | none => .ok (none, false)
  | some (.str s) =>
    if s ≠ "" || force then .ok (some s, force) else .ok (none, force)
  | some _ => .error "'mods.filter.pattern' must be a String"

/-- The `mods` block of `nvim_cmd` (command.c lines 561-672): filter,
tab, verbose, vertical/horizontal, split, the fourteen CMOD flags,
the forced CMOD_SILENT when CMOD_ERRSILENT is set, and the sandbox
capability check. -/
def process_mods (argt : Argt) (md : ModsInput) : Except String CmdMod := do
  let fl ← process_filter md.filter_pattern md.filter_force
  let tab ← process_tab md.tab
  let verbose ← process_verbose md.verbose
  let split0 : SplitMod := { vert := md.vertical, hor := md.horizontal }
  let split ← process_split split0 md.split
  let m : CmdMod :=
    { silent := md.silent || md.emsg_silent  -- CMOD_ERRSILENT forces CMOD_SILENT
      errsilent := md.emsg_silent
      unsilent := md.unsilent
      sandbox := md.sandbox
      noautocmd := md.noautocmd
      browse := md.browse
      confirm := md.confirm
      hide := md.hide
      keepalt := md.keepalt
      keepjumps := md.keepjumps
      keepmarks := md.keepmarks
      keeppatterns := md.keeppatterns
      lockmarks := md.lockmarks
      noswapfile := md.noswapfile
      tab := tab
      verbose := verbose
      split := split
      filter_pat := fl.1
      filter_force := fl.2 }
  if m.sandbox && !argt.sboxok then
    .error "Command cannot be run in sandbox"
  else
    .ok m

/-- Tab modifier emission of `build_cmdline_str` (command.c lines
769-771): the segment "<n>tab " when cmod_tab is non-zero. -/
def tab_seg (m : CmdMod) : List String :=
  if m.tab ≠ 0 then [toString (m.tab - 1) ++ "tab "] else []

/-- Verbose modifier emission of `build_cmdline_str` (command.c lines
772-774). -/
def verbose_seg (m : CmdMod) : List String :=
  if m.verbose > 0 then [toString (m.verbose - 1) ++ "verbose "] else []

/-- Silence modifier emission of `build_cmdline_str` (command.c lines
776-780): "silent! " when CMOD_ERRSILENT, else "silent " when
CMOD_SILENT. -/
def silence_seg (m : CmdMod) : List String :=
  if m.errsilent then ["silent! "]
  else if m.silent then ["silent "]
  else []

/-- Split direction emission of `build_cmdline_str` (command.c lines
786-801): the C switch matches exactly one WSP direction bit; any other
combination falls through to the default and emits nothing. -/
def split_seg (s : SplitMod) : List String :=
  match s.above, s.below, s.top, s.bot with
  | true, false, false, false => ["aboveleft "]
  | false, true, false, false => ["belowright "]
  | false, false, true, false => ["topleft "]
  | false, false, false, true => ["botright "]
  | _, _, _, _ => []

/-- The CMDLINE_APPEND_IF chain of `build_cmdline_str` (command.c lines
810-822), in source order. -/
def flag_segs (m : CmdMod) : List String :=
  ([(m.split.vert, "vertical "),
    (m.split.hor, "horizontal "),
    (m.sandbox, "sandbox "),
    (m.noautocmd, "noautocmd "),
    (m.browse, "browse "),
    (m.confirm, "confirm "),
    (m.hide, "hide "),
    (m.keepalt, "keepalt "),
    (m.keepjumps, "keepjumps "),
    (m.keepmarks, "keepmarks "),
    (m.keeppatterns, "keeppatterns "),
    (m.lockmarks, "lockmarks "),
    (m.noswapfile, "noswapfile ")]).filterMap
    (fun p => if p.1 then some p.2 else none)

/-- Unsilent emission (command.c lines 782-784). -/
def unsilent_seg (m : CmdMod) : List String :=
  if m.unsilent then ["unsilent "] else []

/-- All modifier segments emitted by `build_cmdline_str` before the
range text, in the exact order the C code appends them. -/
def mod_segments (m : CmdMod) : List String :=
  tab_seg m ++ verbose_seg m ++ silence_seg m ++ unsilent_seg m ++
  split_seg m.split ++ flag_segs m

/-- Range text of `build_cmdline_str` (command.c lines 826-833). -/
def range_text (argt : Argt) (addr_count : Int) (line1 line2 : Int) : String :=
  if argt.range then
    if addr_count = 1 then toString line2
    else if addr_count > 1 then toString line1 ++ "," ++ toString line2
    else ""
  else ""

/-- The command line built by `build_cmdline_str` (command.c lines
761-877): modifier segments, range text, command name, bang, register,
then each argument prefixed by one space.  (The offset bookkeeping into
the produced buffer and the makeprg post-processing hook are not part
of any claim and are not modelled.) -/
def build_cmdline_str (argt : Argt) (m : CmdMod) (cmdname : String)
    (forceit : Bool) (regname : Option Char)
    (addr_count : Int) (line1 line2 : Int) (args : List String) : String :=
  String.join (mod_segments m) ++
  range_text argt addr_count line1 line2 ++
  cmdname ++
  (if argt.bang && forceit then "!" else "") ++
  (match regname with
   | some c => if argt.regstr then " " ++ String.singleton c else ""
   | none => "") ++
  String.join (args.map (fun a => " " ++ a))

/-- The register block of `nvim_cmd` (command.c lines 518-531): absent
key does nothing; the contract must accept a register; the value must
be a one-character string; '=' is always rejected; any other character
goes through `valid_yank_reg(regname, writing)` with
`writing = (cmdidx != CMD_put && !IS_USER_CMDIDX(cmdidx))`.
`valid_yank_reg` lives in ops.c and is an explicit parameter `vyr`. -/
def check_reg (argt : Argt) (cmdidx : CmdIdx) (vyr : Char → Bool → Bool) :
    Option ApiObject → Except String (Option Char)
  | none => .ok none
  | some o =>
    if !argt.regstr then .error "Command cannot accept a register"
    else
      match o with
      | .str s =>
        match s.data with
        | [c] =>
          if c = '=' then .error "Cannot use register \"="
          else if !vyr c (cmdidx ≠ .put && !cmdidx.isUser) then
            .error ("Invalid register: \"" ++ String.singleton c)
          else .ok (some c)
        | _ => .error "'reg' must be a single character"
      | _ => .error "'reg' must be a single character"

/-- External collaborators of `nvim_cmd` that live outside
`src/nvim/api/command.c`, taken as opaque parameters: the address type
computed by `set_cmd_addr_type`, the `invalid_range` predicate (true =
range invalid), the full-extent default of `set_cmd_dflall_range`, the
current-position default of `get_cmd_default_range`, the line update of
`set_cmd_count`, and the register predicate `valid_yank_reg`. -/
structure Externals where
  addr_of : Option String → AddrType
  invalid_range : AddrType → Int → Int → Bool
  dflall_range : AddrType → Int × Int
  default_pos : AddrType → Int
  set_count : Int → Int × Int → Int × Int
  vyr : Char → Bool → Bool

/-- The default-range block of `nvim_cmd` (command.c lines 496-507):
when no explicit range was given, use the full-extent default if the
contract has EX_DFLALL, otherwise the current-position default for both
endpoints — except that for ADDR_OTHER the second endpoint is forced to
1 ("Default is 1, not cursor").  Returns (line1, line2). -/
def default_range_block (argt : Argt) (addr_type : AddrType) (ext : Externals)
    (addr_count : Int) (line1 line2 : Int) : Int × Int :=
  if addr_count = 0 then
    if argt.dflall then ext.dflall_range addr_type
    else
      let pos := ext.default_pos addr_type
      if addr_type = .other then (pos, 1) else (pos, pos)
  else (line1, line2)

/-- The range block of `nvim_cmd` (command.c lines 468-495): the
contract must accept a range, the value must be an array of at most two
non-negative integers, the first/last elements become line1/line2, and
`invalid_range` is consulted.  Returns (addr_count, line1, line2). -/
def check_range (argt : Argt) (addr_type : AddrType) (ext : Externals) :
    Option ApiObject → Except String (Int × Int × Int)
  | none => .ok (0, 0, 0)
  | some o =>
    if !argt.range then .error "Command cannot accept a range"
    else
      match o with
      | .array elems =>
        if elems.length > 2 then .error "'range' cannot contain more than two elements"
        else if elems.all (fun e => match e with
                | .integer n => n >= 0
                | _ => false) then
          let nums := elems.filterMap (fun e => match e with
                | .integer n => some n
                | _ => none)
          let line1 := nums.headD 0
          let line2 := nums.getLastD 0
          if ext.invalid_range addr_type line1 line2 then
            .error "Invalid range provided"
          else .ok (elems.length, line1, line2)
        else .error "'range' element must be a non-negative Integer"
      | _ => .error "'range' must be an Array"

/-- The count block of `nvim_cmd` (command.c lines 509-516): the
contract must accept a count, the value must be a non-negative integer,
and the count is applied to the lines through the external
`set_cmd_count`. -/
def check_count (argt : Argt) (ext : Externals) (lines12 : Int × Int) :
    Option ApiObject → Except String (Int × Int)
  | none => .ok lines12
  | some o =>
    if !argt.count then .error "Command cannot accept a count"
    else
      match o with
      | .integer n =>
        if n < 0 then .error "'count' must be a non-negative Integer"
        else .ok (ext.set_count n lines12)
      | _ => .error "'count' must be a non-negative Integer"

/-- The `magic` block of `nvim_cmd` (command.c lines 538-559): explicit
`magic.file` / `magic.bar` default to the contract's EX_XFILE /
EX_TRLBAR bits, and the resolved `file` bit is written back into
`argt.xfile` for this invocation. -/
structure MagicInput where
  file : Option Bool := none
  bar : Option Bool := none

/-- Resolved magic flags together with the possibly-updated argt. -/
def process_magic (argt : Argt) : Option MagicInput → (Bool × Bool × Argt)
  | none => (argt.xfile, argt.trlbar, argt)
  | some mg =>
    let file := mg.file.getD argt.xfile
    let bar := mg.bar.getD argt.trlbar
    (file, bar, { argt with xfile := file })

/-- Command resolution outcome, as produced outside this file by
`find_ex_command` / `get_cmd_argt` (ex_docmd.c): the command index,
its flag bits, its address type, and whether the command exists only
as a stub (`is_cmd_ni`). -/
structure ResolvedCmd where
  cmdidx : CmdIdx
  argt : Argt
  ni : Bool := false

/-- The structured descriptor accepted by `nvim_cmd` after the keydict
step (`Dict(cmd)` in C): raw objects for the keys with explicit type
checks, coerced booleans for the `api_object_to_bool` reads. -/
structure CmdDict where
  cmd : Option ApiObject := none
  range : Option ApiObject := none
  count : Option ApiObject := none
  reg : Option ApiObject := none
  bang : Bool := false
  args : Option ApiObject := none
  magic : Option MagicInput := none
  mods : Option ModsInput := none

/-- Validated state produced by the `nvim_cmd` validation pipeline,
ready for `build_cmdline_str`. -/
structure ValidatedCmd where
  cmdname : String
  cmdidx : CmdIdx
  argt : Argt
  addr_type : AddrType
  addr_count : Int
  line1 : Int
  line2 : Int
  regname : Option Char
  forceit : Bool
  magic_file : Bool
  magic_bar : Bool
  cmdmod : CmdMod
  args : List String

/-- The validation pipeline of `nvim_cmd` (command.c lines 359-672), in
source order: command-name check and resolution, argument conversion
and arity check, address-type resolution, range check, default range,
count check, register check, bang check, magic resolution, modifier
checks.  Resolution itself (find_ex_command plus the CmdUndefined
autocommand retry) is outside this file and enters as `resolve`;
`none` is the "Command not found" outcome. -/
def nvim_cmd_validate (cmd : CmdDict) (resolve : String → Option ResolvedCmd)
    (ext : Externals) : Except String ValidatedCmd := do
  let cmdname ←
    match cmd.cmd with
    | some (.str s) =>
      if s = "" then .error "'cmd' must be a non-empty String" else .ok s
    | _ => .error "'cmd' must be a non-empty String"
  let res ←
    match resolve cmdname with
    | none => .error ("Command not found: " ++ cmdname)
    | some r => .ok r
  if res.ni then
    .error ("Command not implemented: " ++ cmdname)
  else do
  let argt := res.argt
  let args ← check_args argt cmd.args
  let addr_type := ext.addr_of args.head?
  let rl ← check_range argt addr_type ext cmd.range
  let (line1, line2) :=
    default_range_block argt addr_type ext rl.1 rl.2.1 rl.2.2
  let (line1, line2) ← check_count argt ext (line1, line2) cmd.count
  let regname ← check_reg argt res.cmdidx ext.vyr cmd.reg
  let forceit := cmd.bang
  if forceit && !argt.bang then
    .error "Command cannot accept a bang"
  else do
  let (magic_file, magic_bar, argt) := process_magic argt cmd.magic
  let cmdmod ←
    match cmd.mods with
    | none => .ok ({} : CmdMod)
    | some md => process_mods argt md
  .ok { cmdname := cmdname
        cmdidx := res.cmdidx
        argt := argt
        addr_type := addr_type
        addr_count := rl.1
        line1 := line1
        line2 := line2
        regname := regname
        forceit := forceit
        magic_file := magic_file
        magic_bar := magic_bar
        cmdmod := cmdmod
        args := args }

/-- `nvim_cmd` up to (and excluding) execution: validation followed by
`build_cmdline_str` (command.c line 676).  The serializer runs only on
the success path; a validation error reaches `end:` directly. -/
def nvim_cmd_run (cmd : CmdDict) (resolve : String → Option ResolvedCmd)
    (ext : Externals) : Except String String :=
  (nvim_cmd_validate cmd resolve ext).map fun v =>
    build_cmdline_str v.argt v.cmdmod v.cmdname v.forceit v.regname
      v.addr_count v.line1 v.line2 v.args

/-- The argument-splitting loop of `nvim_parse_cmd` (command.c lines
133-146) over an abstract splitter: iteration `i` of the external
`uc_split_args_iter` yields a done flag and the segment it wrote into
`buf` (empty when `len == 0`); segments of positive length are
collected in order; the loop stops when the splitter reports done.
`fuel` bounds the iteration (the external splitter guarantees
termination within the argument length). -/
def split_iter_loop : Nat → (Nat → Bool × String) → Nat → List String
  | 0, _, _ => []
  | fuel + 1, step, i =>
    let r := step i
    (if r.2.length > 0 then [r.2] else []) ++
    (if r.1 then [] else split_iter_loop fuel step (i + 1))

/-- The raw emission sequence of the same splitter iteration (every
segment, also the empty ones), used to state order preservation. -/
def split_iter_raw : Nat → (Nat → Bool × String) → Nat → List String
  | 0, _, _ => []
  | fuel + 1, step, i =>
    let r := step i
    r.2 :: (if r.1 then [] else split_iter_raw fuel step (i + 1))

/-- The argument-parsing block of `nvim_parse_cmd` (command.c lines
122-146): with EX_NOSPC the whole trailing text is one argument
(omitted when empty), otherwise the splitter loop runs. -/
def parse_cmd_args (argt : Argt) (arg : String)
    (fuel : Nat) (step : Nat → Bool × String) : List String :=
  if argt.nospc then
    if arg ≠ "" then [arg] else []
  else
    split_iter_loop fuel step 0

/-- Modelled from the spec: the external tokenizer `parse_cmdline`
(ex_docmd.c, not under src/) recovers `cmod_tab` from the textual tab
modifier — a segment of the form "<digits>tab " yields that number plus
one, and a modifier prefix without such a segment yields 0 ("absent").
The recogniser works on the serialized modifier segments. -/
def tab_val (s : String) : Option Nat :=
  match s.data.reverse with
  | ' ' :: 'b' :: 'a' :: 't' :: rest =>
    let ds := rest.reverse
    if ds ≠ [] && ds.all Char.isDigit then
      some (ds.foldl (fun acc c => acc * 10 + (c.toNat - 48)) 0)
    else none
  | _ => none

/-- Modelled from the spec: the same recogniser for the verbose
modifier segment "<digits>verbose ". -/
def verbose_val (s : String) : Option Nat :=
  match s.data.reverse with
  | ' ' :: 'e' :: 's' :: 'o' :: 'b' :: 'r' :: 'e' :: 'v' :: rest =>
    let ds := rest.reverse
    if ds ≠ [] && ds.all Char.isDigit then
      some (ds.foldl (fun acc c => acc * 10 + (c.toNat - 48)) 0)
    else none
  | _ => none

/-- Modelled from the spec: `cmod_tab` as the external parser would
reconstruct it from the serialized modifier segments (0 when no tab
modifier is present). -/
def parsed_cmod_tab (segs : List String) : Int :=
  match segs.filterMap tab_val with
  | [] => 0
  | n :: _ => (n : Int) + 1

/-- Modelled from the spec: `cmod_verbose` reconstructed from the
serialized modifier segments. -/
def parsed_cmod_verbose (segs : List String) : Int :=
  match segs.filterMap verbose_val with
  | [] => 0
  | n :: _ => (n : Int) + 1

/-- The `mods.tab` value reported by `nvim_parse_cmd` (command.c line
256): `cmod_tab - 1`, so an absent tab modifier reports -1. -/
def nvim_parse_cmd_tab_report (cmod_tab : Int) : Int :=
  cmod_tab - 1

/-- The `mods.verbose` value reported by `nvim_parse_cmd` (command.c
line 257). -/
def nvim_parse_cmd_verbose_report (cmod_verbose : Int) : Int :=
  cmod_verbose - 1

/-- A registry entry as assembled by `create_user_command` before the
hand-off to `uc_add_command` (replacement text or Lua behaviour are
collapsed to the `rep` string; Lua references are external handles). -/
structure UserCmdEntry where
  rep : String
  argt : Argt
  defValue : Int          -- uc_def
  addr : AddrType
deriving Repr, DecidableEq

/-- The user-command registry (the `ucmds` garray of one scope),
keyed by command name. -/
abbrev Registry := List (String × UserCmdEntry)

/-- Modelled from the spec: `uc_add_command` (nvim/usercmd.c, not under
src/) — defining a name that already exists fails when `force` is
false and leaves the table untouched; otherwise the entry is inserted
or overwritten.  The error text is the one `create_user_command`
reports when `uc_add_command` returns FAIL (command.c line 1197). -/
def uc_add_command (reg : Registry) (name : String) (e : UserCmdEntry)
    (force : Bool) : Except String Registry :=
  if (reg.lookup name).isSome && !force then
    .error "Failed to create user command"
  else
    .ok ((name, e) :: reg.filter (fun p => p.1 ≠ name))

/-- Modelled from the spec: `uc_validate_name` (nvim/usercmd.c, not
under src/) — a command name is non-empty and contains no characters
disallowed for command names (embedded here as: alphanumeric). -/
def uc_validate_name (name : String) : Bool :=
  name ≠ "" && name.data.all Char.isAlphanum

/-- `mb_islower` on the first byte of the name (command.c line 1022). -/
def mb_islower (c : Char) : Bool :=
  c.isLower

/-- The `opts` dictionary of `create_user_command` after the keydict
step: raw objects for keys with explicit type switches, coerced
booleans for `api_object_to_bool` reads.  `force` keeps its optional
shape because its C default is `true` (command.c line 1150). -/
structure UserCmdOpts where
  nargs : Option ApiObject := none
  range : Option ApiObject := none
  count : Option ApiObject := none
  addr : Option AddrType := none    -- parse_addr_type_arg is external
  bang : Bool := false
  bar : Bool := false
  register_ : Bool := false
  keepscript : Bool := false
  force : Option Bool := none
  complete : Option ApiObject := none
  preview : Option ApiObject := none
  desc : Option ApiObject := none

/-- The `nargs` switch of `create_user_command` (command.c lines
1032-1067): integers 0/1 and the strings "*", "?", "+" are accepted;
everything else is an error. -/
def parse_nargs : Option ApiObject → Except String Argt
  | none => .ok {}
  | some (.integer 0) => .ok (nargs_flags .numZero)
  | some (.integer 1) => .ok (nargs_flags .numOne)
  | some (.integer _) => .error "Invalid value for 'nargs'"
  | some (.str s) =>
    if s = "*" then .ok (nargs_flags .star)
    else if s = "?" then .ok (nargs_flags .quest)
    else if s = "+" then .ok (nargs_flags .plus)
    else .error "Invalid value for 'nargs'"
  | some _ => .error "Invalid value for 'nargs'"

/-- The `range` option switch of `create_user_command` (command.c
lines 1074-1094): boolean true sets EX_RANGE with line addressing, the
string "%" adds EX_DFLALL, an integer sets EX_RANGE | EX_ZEROR with a
default value.  Returns (argt, uc_def, addr_type_arg). -/
def parse_range_opt (argt0 : Argt) : Option ApiObject →
    Except String (Argt × Int × AddrType)
  | none => .ok (argt0, -1, .addrNone)
  | some (.boolean b) =>
    .ok (if b then ({ argt0 with range := true }, -1, .lines)
         else (argt0, -1, .addrNone))
  | some (.str s) =>
    if s = "%" then
      .ok ({ argt0 with range := true, dflall := true }, -1, .lines)
    else .error "Invalid value for 'range'"
  | some (.integer n) =>
    .ok ({ argt0 with range := true, zeror := true }, n, .lines)
  | some _ => .error "Invalid value for 'range'"

/-- The `count` option switch of `create_user_command` (command.c
lines 1096-1109): a true boolean or an integer sets
EX_COUNT | EX_ZEROR | EX_RANGE with ADDR_OTHER addressing and a default
count. -/
def parse_count_opt (st : Argt × Int × AddrType) : Option ApiObject →
    Except String (Argt × Int × AddrType)
  | none => .ok st
  | some (.boolean b) =>
    .ok (if b then
           ({ st.1 with count := true, zeror := true, range := true },
            0, .other)
         else st)
  | some (.integer n) =>
    .ok ({ st.1 with count := true, zeror := true, range := true }, n, .other)
  | some _ => .error "Invalid value for 'count'"

/-- `create_user_command` up to the `uc_add_command` hand-off
(command.c lines 1004-1199), embedded over one scope's registry: name
validation, the range/count mutual exclusion, the option switches, the
boolean attributes, the `force` default of true, the command payload
check, then the (spec-modelled) `uc_add_command`. -/
def create_user_command_core (reg : Registry) (name : String)
    (command : ApiObject) (opts : UserCmdOpts) : Except String Registry :=
  if !uc_validate_name name then .error "Invalid command name"
  else if mb_islower (name.data.headD 'A') then
    .error "'name' must begin with an uppercase letter"
  else if opts.range.isSome && opts.count.isSome then
    .error "'range' and 'count' are mutually exclusive"
  else
    match parse_nargs opts.nargs with
    | .error e => .error e
    | .ok argt0 =>
      if opts.complete.isSome && argt0 = ({} : Argt) then
        .error "'complete' used without 'nargs'"
      else
        match parse_range_opt argt0 opts.range with
        | .error e => .error e
        | .ok st1 =>
          match parse_count_opt st1 opts.count with
          | .error e => .error e
          | .ok st2 =>
            let st3 := match opts.addr with
              | none => st2
              | some a =>
                ({ st2.1 with zeror := st2.1.zeror || a ≠ AddrType.lines },
                 st2.2.1, a)
            let argt1 := { st3.1 with
                           bang := st3.1.bang || opts.bang
                           trlbar := st3.1.trlbar || opts.bar
                           regstr := st3.1.regstr || opts.register_
                           keepscript := st3.1.keepscript || opts.keepscript }
            let force := opts.force.getD true
            if opts.complete.isSome && !(match opts.complete with
                | some .luaref => true | some (.str _) => true | _ => false) then
              .error "Invalid value for 'complete'"
            else
              let argt2 := match opts.preview with
                | some .luaref => { argt1 with preview := true }
                | _ => argt1
              if opts.preview.isSome && !(match opts.preview with
                  | some .luaref => true | _ => false) then
                .error "Invalid value for 'preview'"
              else
                match command with
                | .luaref =>
                  uc_add_command reg name
                    { rep := (match opts.desc with
                        | some (.str d) => d
                        | _ => "")
                      argt := argt2, defValue := st3.2.1, addr := st3.2.2 } force
                | .str s =>
                  uc_add_command reg name
                    { rep := s, argt := argt2, defValue := st3.2.1,
                      addr := st3.2.2 } force
                | _ => .error "'command' must be a string or Lua function"

/-- `create_user_command` as callers observe it: the (possibly updated)
registry plus the error, mirroring the C out-parameter convention — on
any error the registry is returned unchanged. -/
def create_user_command (reg : Registry) (name : String)
    (command : ApiObject) (opts : UserCmdOpts) :
    Registry × Option String :=
  match create_user_command_core reg name command opts with
  | .ok reg2 => (reg2, none)
  | .error e => (reg, some e)

/-- `nvim_buf_get_commands` (command.c lines 1230-1252), with
`find_buffer_by_handle` and `commands_array` (nvim/usercmd.c) as
parameters: a buffer of -1 means the global scope, where builtin=true
is a validation error; for a buffer scope the C code returns an empty
map when builtin is true or the handle does not resolve, and the
buffer's command array otherwise. -/
def nvim_buf_get_commands (buffer : Int) (builtin : Bool)
    (global_cmds : List UserCmdEntry)
    (find_buf : Int → Option (List UserCmdEntry)) :
    Except String (List UserCmdEntry) :=
  if buffer = -1 then
    if builtin then .error "builtin=true not implemented"
    else .ok global_cmds
  else
    match find_buf buffer with
    | none => .ok []
    | some cmds => if builtin then .ok [] else .ok cmds

/-- `nvim_get_commands` (command.c lines 1217-1221): the global scope
of `nvim_buf_get_commands`. -/
def nvim_get_commands (builtin : Bool) (global_cmds : List UserCmdEntry) :
    Except String (List UserCmdEntry) :=
  nvim_buf_get_commands (-1) builtin global_cmds (fun _ => none)

/-- Concrete externals used in witness instantiations: ADDR_OTHER
addressing, a never-invalid range, full extent (1,10), current
position 5, `set_cmd_count` writing the count into line2, and an
always-true register predicate. -/
def ext_fix : Externals :=
  { addr_of := fun _ => .other
    invalid_range := fun _ _ _ => false
    dflall_range := fun _ => (1, 10)
    default_pos := fun _ => 5
    set_count := fun n p => (p.1, n)
    vyr := fun _ _ => true }

/-- Concrete command resolution used in witness instantiations: every
name resolves to a user command accepting a range and arguments but no
count. -/
def res_fix : String → Option ResolvedCmd :=
  fun _ => some { cmdidx := .user, argt := { range := true, extra := true } }

/-- A concrete registry entry for listing and registry witnesses. -/
def entry_fix : UserCmdEntry :=
  { rep := "echo", argt := {}, defValue := -1, addr := .addrNone }

/-- The thirteen fixed modifier strings of the CMDLINE_APPEND_IF chain
(command.c lines 810-822). -/
def flag_seg_strs : List String :=
  ["vertical ", "horizontal ", "sandbox ", "noautocmd ", "browse ",
   "confirm ", "hide ", "keepalt ", "keepjumps ", "keepmarks ",
   "keeppatterns ", "lockmarks ", "noswapfile "]

/-- Every modifier segment `build_cmdline_str` can emit apart from the
numeric tab/verbose segments. -/
def fixed_mod_segs : List String :=
  ["silent! ", "silent ", "unsilent ",
   "aboveleft ", "belowright ", "topleft ", "botright "] ++ flag_seg_strs

theorem string_iswhite_go_eq_all (l : List Char) :
    string_iswhite_go l = l.all ascii_iswhite := by
  induction l with
  | nil => rfl
  | cons c rest ih =>
    by_cases h : ascii_iswhite c = true
    · have hc : c = ' ' ∨ c = '\t' := by
        simpa [ascii_iswhite, Bool.or_eq_true, decide_eq_true_eq] using h
      have hnz : ¬ c = Char.ofNat 0 := by
        rcases hc with h1 | h1 <;> subst h1 <;> decide
      simp [string_iswhite_go, h, hnz, ih]
    · have h2 : ascii_iswhite c = false := by simpa using h
      simp [string_iswhite_go, h2]

theorem string_iswhite_eq_all (s : String) :
    string_iswhite s = s.data.all ascii_iswhite :=
  string_iswhite_go_eq_all s.data

theorem convertArgs_length (objs : List ApiObject) (ss : List String)
    (h : convertArgs objs = .ok ss) : ss.length = objs.length := by
  induction objs generalizing ss with
  | nil => simp [convertArgs] at h; subst h; rfl
  | cons o rest ih =>
    simp only [convertArgs] at h
    cases ho : convertArg o with
    | error e => simp [ho, bind, Except.bind] at h
    | ok s =>
      cases hr : convertArgs rest with
      | error e => simp [ho, hr, bind, Except.bind] at h
      | ok ss2 =>
        simp [ho, hr, bind, Except.bind] at h
        subst h
        simp [ih ss2 hr]

/-- C10: in the structured-execution entry point `nvim_cmd`, a String
argument consisting only of whitespace characters is rejected with a
validation error, Booleans convert to "1"/"0", Integer/Buffer/Window/
Tabpage arguments convert to their decimal string form, and every
other object type is rejected. -/
theorem claim_C10_arg_conversion (b : Bool) (n : Int) (s : String)
    (xs : List ApiObject) :
    convertArg (.boolean b) = .ok (if b then "1" else "0") ∧
    convertArg (.integer n) = .ok (toString n) ∧
    convertArg (.buffer n) = .ok (toString n) ∧
    convertArg (.window n) = .ok (toString n) ∧
    convertArg (.tabpage n) = .ok (toString n) ∧
    convertArg (.str s) =
      (if s.data.all ascii_iswhite then
        .error "String command argument must have at least one non-whitespace character"
       else .ok s) ∧
    convertArg .nil = .error "Invalid type for command argument" ∧
    convertArg .float = .error "Invalid type for command argument" ∧
    convertArg (.array xs) = .error "Invalid type for command argument" ∧
    convertArg .dict = .error "Invalid type for command argument" ∧
    convertArg .luaref = .error "Invalid type for command argument" := by
  refine ⟨rfl, rfl, rfl, rfl, rfl, ?_, rfl, rfl, rfl, rfl, rfl⟩
  simp only [convertArg, string_iswhite_eq_all]

/-- C5 counterexample: the argument-count error is the same fixed
string for every expected arity — here a `none`-arity violation and an
`exactlyOne`-arity violation produce the identical message
"Incorrect number of arguments supplied" — so the validation error
does not name the expected arity, contrary to the claim. -/
theorem claim_C5_counterexample :
    check_args (nargs_flags .numZero) (some (.array [.str "x"])) =
      .error "Incorrect number of arguments supplied" ∧
    check_args (nargs_flags .numOne) (some (.array [])) =
      .error "Incorrect number of arguments supplied" := ⟨rfl, rfl⟩

/-- C5 (amended): the argument-count check enforces the arity policy —
exactlyOne ⇒ size = 1, zeroOrOne ⇒ size ≤ 1, oneOrMore ⇒ size ≥ 1,
zeroOrMore ⇒ unconstrained, none ⇒ size = 0 — and a violation (in
particular any non-empty args under arity none) fails validation with
the fixed, arity-independent message
"Incorrect number of arguments supplied". -/
theorem claim_C5_argc_policy (na : Nargs) (n : Nat) (objs : List ApiObject)
    (ss : List String) (h : convertArgs objs = .ok ss) :
    (argc_valid (nargs_flags na) n = true ↔
      (match na with
       | .numOne => n = 1
       | .quest => n ≤ 1
       | .plus => 1 ≤ n
       | .star => True
       | .numZero => n = 0)) ∧
    ss.length = objs.length ∧
    check_args (nargs_flags na) (some (.array objs)) =
      (if argc_valid (nargs_flags na) ss.length then .ok ss
       else .error "Incorrect number of arguments supplied") := by
  refine ⟨?_, convertArgs_length objs ss h, ?_⟩
  · cases na <;> simp [argc_valid, nargs_flags]
  · simp [check_args, h, bind, Except.bind]

/-- Witness for C5 at arity none with one non-empty argument. -/
theorem claim_C5_argc_policy_witness :
    convertArgs [ApiObject.str "x"] = .ok ["x"] ∧
    ((argc_valid (nargs_flags .numZero) 3 = true ↔ 3 = 0) ∧
     (["x"] : List String).length = ([ApiObject.str "x"]).length ∧
     check_args (nargs_flags .numZero) (some (.array [.str "x"])) =
       (if argc_valid (nargs_flags .numZero) (["x"] : List String).length
        then .ok ["x"]
        else .error "Incorrect number of arguments supplied")) :=
  ⟨rfl, claim_C5_argc_policy .numZero 3 [.str "x"] ["x"] rfl⟩

theorem data_singleton (c : Char) : (String.singleton c).data = [c] := rfl

/-- C1 counterexample: running the `nvim_cmd` validation pipeline on a
command with no explicit range, a contract without rangeDefaultAll and
resolved address kind `other` (current position 5) synthesizes
line2 = 1 — not 2 as the claim states (and not the current position):
the code comment at command.c line 503 says "Default is 1, not
cursor". -/
theorem claim_C1_counterexample :
    (nvim_cmd_validate { cmd := some (.str "MyCmd") } res_fix ext_fix).toOption.map
      (fun v => (v.addr_type, v.line1, v.line2)) = some (.other, 5, 1) ∧
    (1 : Int) ≠ 2 ∧ (1 : Int) ≠ 5 := ⟨rfl, by decide, by decide⟩

/-- C1 (amended): for every valid command whose resolved address kind
is `other`, when the caller supplies no explicit range and the contract
does not mark rangeDefaultAll, validation synthesizes a default range
whose endpoint (line2) equals 1 — not the current position and not 2. -/
theorem claim_C1_other_default (argt : Argt) (ext : Externals) (l1 l2 : Int)
    (h : argt.dflall = false) :
    (default_range_block argt .other ext 0 l1 l2).2 = 1 := by
  simp [default_range_block, h]

/-- Witness for C1 with the empty contract and concrete externals. -/
theorem claim_C1_other_default_witness :
    ({} : Argt).dflall = false ∧
    (default_range_block {} .other ext_fix 0 0 0).2 = 1 :=
  ⟨rfl, claim_C1_other_default {} ext_fix 0 0 rfl⟩

/-- C7: the register block of `nvim_cmd` — a contract without
EX_REGSTR rejects any register; the value must be a one-character
string; '=' is always rejected; any other character is accepted iff the
register-validity predicate holds, and that predicate is called with
writability not required exactly when the command is `put` or a user
command. -/
theorem claim_C7_register_check (argt : Argt) (cmdidx : CmdIdx)
    (vyr : Char → Bool → Bool) (o : ApiObject) (s : String) (c : Char)
    (hr : argt.regstr = true) :
    (check_reg { argt with regstr := false } cmdidx vyr (some o) =
      .error "Command cannot accept a register") ∧
    (s.data.length ≠ 1 → check_reg argt cmdidx vyr (some (.str s)) =
      .error "'reg' must be a single character") ∧
    check_reg argt cmdidx vyr (some (.str (String.singleton '='))) =
      .error "Cannot use register \"=" ∧
    (c ≠ '=' → (check_reg argt cmdidx vyr (some (.str (String.singleton c))) =
        .ok (some c) ↔ vyr c (cmdidx ≠ .put && !cmdidx.isUser) = true)) ∧
    ((cmdidx ≠ .put && !cmdidx.isUser) = false ↔
      (cmdidx = .put ∨ cmdidx.isUser = true)) := by
  refine ⟨by simp [check_reg], ?_, ?_, ?_, ?_⟩
  · intro h
    rcases hsd : s.data with _ | ⟨c1, _ | ⟨c2, tl⟩⟩
    · simp [check_reg, hr, hsd]
    · exact absurd (by rw [hsd]; rfl) h
    · simp [check_reg, hr, hsd]
  · simp [check_reg, hr, data_singleton]
  · intro hc
    simp only [check_reg, hr, data_singleton]
    cases hv : vyr c (decide ¬cmdidx = .put && !cmdidx.isUser) <;>
      simp [hc, hv]
  · cases cmdidx <;> decide

/-- Witness for C7 at the `put` command with an always-true register
predicate. -/
theorem claim_C7_register_check_witness :
    ({ regstr := true } : Argt).regstr = true ∧
    ((check_reg { ({ regstr := true } : Argt) with regstr := false } .put
        (fun _ _ => true) (some .nil) =
      .error "Command cannot accept a register") ∧
    (("ab" : String).data.length ≠ 1 →
      check_reg { regstr := true } .put (fun _ _ => true) (some (.str "ab")) =
      .error "'reg' must be a single character") ∧
    check_reg { regstr := true } .put (fun _ _ => true)
        (some (.str (String.singleton '='))) =
      .error "Cannot use register \"=" ∧
    ('a' ≠ '=' → (check_reg { regstr := true } .put (fun _ _ => true)
        (some (.str (String.singleton 'a'))) = .ok (some 'a') ↔
        (fun _ _ => true) 'a' ((CmdIdx.put ≠ .put) && !CmdIdx.put.isUser) = true)) ∧
    (((CmdIdx.put ≠ .put) && !CmdIdx.put.isUser) = false ↔
      (CmdIdx.put = .put ∨ CmdIdx.put.isUser = true))) :=
  ⟨rfl, claim_C7_register_check { regstr := true } .put (fun _ _ => true)
    .nil "ab" 'a' rfl⟩

/-- C8 counterexample: listing a buffer-local scope (valid buffer 0)
with builtin=true does NOT fail validation — the code returns an empty
map with no error (command.c line 1248), contrary to the claim that
every scope fails. -/
theorem claim_C8_counterexample :
    nvim_buf_get_commands 0 true [entry_fix] (fun _ => some [entry_fix]) =
      .ok [] ∧
    (nvim_buf_get_commands 0 true [entry_fix]
      (fun _ => some [entry_fix])).toOption.isSome = true := ⟨rfl, rfl⟩

/-- C8 (amended): listing the global scope with includeBuiltin=true
fails validation before any listing; a buffer-local scope with
includeBuiltin=true silently returns an empty result instead of an
error; with includeBuiltin=false each scope returns its user-defined
command entries. -/
theorem claim_C8_listing (g : List UserCmdEntry)
    (fb : Int → Option (List UserCmdEntry)) (b : Int)
    (entries : List UserCmdEntry)
    (hb : b ≠ -1) (hfb : fb b = some entries) :
    nvim_buf_get_commands (-1) true g fb = .error "builtin=true not implemented" ∧
    nvim_buf_get_commands (-1) false g fb = .ok g ∧
    nvim_buf_get_commands b true g fb = .ok [] ∧
    nvim_buf_get_commands b false g fb = .ok entries := by
  refine ⟨rfl, rfl, ?_, ?_⟩ <;> simp [nvim_buf_get_commands, hb, hfb]

/-- Witness for C8 at buffer 0 with a one-entry scope. -/
theorem claim_C8_listing_witness :
    (0 : Int) ≠ -1 ∧
    (nvim_buf_get_commands (-1) true [entry_fix] (fun _ => some [entry_fix]) =
      .error "builtin=true not implemented" ∧
    nvim_buf_get_commands (-1) false [entry_fix] (fun _ => some [entry_fix]) =
      .ok [entry_fix] ∧
    nvim_buf_get_commands 0 true [entry_fix] (fun _ => some [entry_fix]) =
      .ok [] ∧
    nvim_buf_get_commands 0 false [entry_fix] (fun _ => some [entry_fix]) =
      .ok [entry_fix]) :=
  ⟨by decide, claim_C8_listing [entry_fix] (fun _ => some [entry_fix]) 0
    [entry_fix] (by decide) rfl⟩

theorem split_iter_loop_eq_filter (fuel : Nat) (step : Nat → Bool × String)
    (i : Nat) :
    split_iter_loop fuel step i =
      (split_iter_raw fuel step i).filter (fun s => s.length > 0) := by
  induction fuel generalizing i with
  | zero => rfl
  | succ f ih =>
    simp only [split_iter_loop, split_iter_raw]
    rcases h : step i with ⟨done, seg⟩
    by_cases hl : seg.length > 0
    · cases done <;> simp [hl, ih, List.filter_cons]
    · cases done <;> simp [hl, ih, List.filter_cons]

/-- C9: in `nvim_parse_cmd`, a contract with arity exactlyOne (nargs 1)
or zeroOrOne (nargs "?") — exactly the contracts carrying EX_NOSPC —
takes the whole trailing text as one single argument (omitted when
empty, never split); every other arity runs the external splitter
iteratively, and `args` is the splitter's emission sequence with its
empty segments dropped, preserving order. -/
theorem claim_C9_arg_splitting (na : Nargs) (arg : String) (fuel : Nat)
    (step : Nat → Bool × String) :
    ((nargs_flags na).nospc = true ↔ (na = .numOne ∨ na = .quest)) ∧
    ((nargs_chr (nargs_flags na) = "1" ∨ nargs_chr (nargs_flags na) = "?") ↔
      (nargs_flags na).nospc = true) ∧
    parse_cmd_args (nargs_flags na) arg fuel step =
      (if (nargs_flags na).nospc then (if arg ≠ "" then [arg] else [])
       else (split_iter_raw fuel step 0).filter (fun s => s.length > 0)) := by
  refine ⟨?_, ?_, ?_⟩
  · cases na <;> simp [nargs_flags]
  · cases na <;> simp [nargs_flags, nargs_chr]
  · by_cases h : (nargs_flags na).nospc <;>
      simp [parse_cmd_args, h, split_iter_loop_eq_filter]

theorem append_tab_ne_silent (a : String) : a ++ "tab " ≠ "silent " := by
  intro h
  have hd : (a ++ "tab ").data = "silent ".data := congrArg String.data h
  rw [String.data_append] at hd
  have hs : "tab ".data <:+ "silent ".data := ⟨a.data, hd⟩
  exact absurd hs (by decide)

theorem append_verbose_ne_silent (a : String) : a ++ "verbose " ≠ "silent " := by
  intro h
  have hd : (a ++ "verbose ").data = "silent ".data := congrArg String.data h
  rw [String.data_append] at hd
  have hs : "verbose ".data <:+ "silent ".data := ⟨a.data, hd⟩
  exact absurd hs (by decide)

theorem mem_flag_segs (m : CmdMod) (s : String) (h : s ∈ flag_segs m) :
    s ∈ flag_seg_strs := by
  simp only [flag_segs, List.mem_filterMap] at h
  obtain ⟨p, hp, he⟩ := h
  fin_cases hp <;> split at he <;> simp at he <;> (subst he; decide)

theorem mod_segments_shape (m : CmdMod) (s : String) (h : s ∈ mod_segments m) :
    s ∈ tab_seg m ∨ s ∈ verbose_seg m ∨ s ∈ silence_seg m ∨
    s ∈ unsilent_seg m ∨ s ∈ split_seg m.split ∨ s ∈ flag_segs m := by
  simp only [mod_segments, List.mem_append] at h
  tauto

theorem process_mods_ok_shape (argt : Argt) (md : ModsInput) (m : CmdMod)
    (h : process_mods argt md = .ok m) :
    ∃ fl t v sp,
      process_filter md.filter_pattern md.filter_force = .ok fl ∧
      process_tab md.tab = .ok t ∧
      process_verbose md.verbose = .ok v ∧
      process_split { vert := md.vertical, hor := md.horizontal } md.split = .ok sp ∧
      m = { silent := md.silent || md.emsg_silent
            errsilent := md.emsg_silent
            unsilent := md.unsilent
            sandbox := md.sandbox
            noautocmd := md.noautocmd
            browse := md.browse
            confirm := md.confirm
            hide := md.hide
            keepalt := md.keepalt
            keepjumps := md.keepjumps
            keepmarks := md.keepmarks
            keeppatterns := md.keeppatterns
            lockmarks := md.lockmarks
            noswapfile := md.noswapfile
            tab := t
            verbose := v
            split := sp
            filter_pat := fl.1
            filter_force := fl.2 } := by
  unfold process_mods at h
  cases hf : process_filter md.filter_pattern md.filter_force with
  | error e => simp [hf, bind, Except.bind] at h
  | ok fl =>
    cases ht : process_tab md.tab with
    | error e => simp [hf, ht, bind, Except.bind] at h
    | ok t =>
      cases hv : process_verbose md.verbose with
      | error e => simp [hf, ht, hv, bind, Except.bind] at h
      | ok v =>
        cases hsp : process_split { vert := md.vertical, hor := md.horizontal }
            md.split with
        | error e => simp [hf, ht, hv, hsp, bind, Except.bind] at h
        | ok sp =>
          simp only [hf, ht, hv, hsp, bind, Except.bind] at h
          split at h
          · simp at h
          · exact ⟨fl, t, v, sp, rfl, rfl, rfl, rfl, (Except.ok.inj h).symm⟩

theorem fixed_seg_vals_none :
    ∀ s ∈ fixed_mod_segs, tab_val s = none ∧ verbose_val s = none := by
  decide

theorem mem_mod_segments_fixed (m : CmdMod) (ht : m.tab = 0)
    (hv : m.verbose = 0) (s : String) (h : s ∈ mod_segments m) :
    s ∈ fixed_mod_segs := by
  rcases mod_segments_shape m s h with hb | hb | hb | hb | hb | hb
  · simp [tab_seg, ht] at hb
  · simp [verbose_seg, hv] at hb
  · unfold silence_seg at hb
    split at hb
    · simp at hb; subst hb; decide
    · split at hb
      · simp at hb; subst hb; decide
      · simp at hb
  · unfold unsilent_seg at hb
    split at hb
    · simp at hb; subst hb; decide
    · simp at hb
  · unfold split_seg at hb
    split at hb <;> simp at hb <;> (subst hb; decide)
  · have h2 := mem_flag_segs m s hb
    unfold fixed_mod_segs
    simp [flag_seg_strs] at h2 ⊢
    tauto

/-- C4: a descriptor with errorSilent (emsg_silent) = true never fails
the modifier checks on that account — whenever modifier validation
succeeds, silent is forced true — and the serializer's modifier
emission contains the segment "silent! " and never the bare segment
"silent " alongside it. -/
theorem claim_C4_errsilent (argt : Argt) (md : ModsInput) (m : CmdMod)
    (he : md.emsg_silent = true) (h : process_mods argt md = .ok m) :
    m.silent = true ∧ m.errsilent = true ∧
    "silent! " ∈ mod_segments m ∧ "silent " ∉ mod_segments m := by
  obtain ⟨fl, t, v, sp, hf, ht, hv, hsp, hm⟩ := process_mods_ok_shape argt md m h
  have hsil : m.silent = true := by simp [hm, he]
  have herr : m.errsilent = true := by simp [hm, he]
  refine ⟨hsil, herr, ?_, ?_⟩
  · simp [mod_segments, silence_seg, herr]
  · intro hmem
    rcases mod_segments_shape _ _ hmem with hb | hb | hb | hb | hb | hb
    · unfold tab_seg at hb
      split at hb
      · simp at hb
        exact append_tab_ne_silent _ hb.symm
      · simp at hb
    · unfold verbose_seg at hb
      split at hb
      · simp at hb
        exact append_verbose_ne_silent _ hb.symm
      · simp at hb
    · simp only [silence_seg, herr, if_true] at hb
      simp at hb
    · unfold unsilent_seg at hb
      split at hb <;> simp at hb
    · unfold split_seg at hb
      split at hb <;> simp at hb
    · have h2 := mem_flag_segs _ _ hb
      simp [flag_seg_strs] at h2

/-- Witness for C4 with only emsg_silent set. -/
theorem claim_C4_errsilent_witness :
    ({ emsg_silent := true } : ModsInput).emsg_silent = true ∧
    process_mods {} { emsg_silent := true } =
      .ok { silent := true, errsilent := true } ∧
    (({ silent := true, errsilent := true } : CmdMod).silent = true ∧
     ({ silent := true, errsilent := true } : CmdMod).errsilent = true ∧
     "silent! " ∈ mod_segments { silent := true, errsilent := true } ∧
     "silent " ∉ mod_segments { silent := true, errsilent := true }) :=
  ⟨rfl, rfl, claim_C4_errsilent {} { emsg_silent := true }
    { silent := true, errsilent := true } rfl rfl⟩

/-- C6: passing tab = -1 (and verbose = -1) is never a validation
error — the sentinel is silently dropped (cmod stays 0) — the
serializer emits no tab/verbose modifier segment, and the parse
direction reports the modifier as absent (-1) again. -/
theorem claim_C6_tab_sentinel (argt : Argt) (md : ModsInput) (m : CmdMod)
    (htab : md.tab = some (.integer (-1)))
    (hverb : md.verbose = some (.integer (-1)))
    (h : process_mods argt md = .ok m) :
    process_tab (some (.integer (-1))) = .ok 0 ∧
    process_verbose (some (.integer (-1))) = .ok 0 ∧
    m.tab = 0 ∧ m.verbose = 0 ∧
    tab_seg m = [] ∧ verbose_seg m = [] ∧
    nvim_parse_cmd_tab_report (parsed_cmod_tab (mod_segments m)) = -1 ∧
    nvim_parse_cmd_verbose_report (parsed_cmod_verbose (mod_segments m)) = -1 := by
  obtain ⟨fl, t, v, sp, hf, ht, hv, hsp, hm⟩ := process_mods_ok_shape argt md m h
  rw [htab] at ht
  rw [hverb] at hv
  have ht0 : t = 0 := by
    have h2 : Except.ok (ε := String) (0 : Int) = .ok t := ht
    exact (Except.ok.inj h2).symm
  have hv0 : v = 0 := by
    have h2 : Except.ok (ε := String) (0 : Int) = .ok v := hv
    exact (Except.ok.inj h2).symm
  have hmt : m.tab = 0 := by simp [hm, ht0]
  have hmv : m.verbose = 0 := by simp [hm, hv0]
  have hall : ∀ s ∈ mod_segments m, tab_val s = none ∧ verbose_val s = none :=
    fun s hs => fixed_seg_vals_none s (mem_mod_segments_fixed m hmt hmv s hs)
  have htv : parsed_cmod_tab (mod_segments m) = 0 := by
    unfold parsed_cmod_tab
    rw [List.filterMap_eq_nil_iff.mpr (fun a ha => (hall a ha).1)]
  have hvv : parsed_cmod_verbose (mod_segments m) = 0 := by
    unfold parsed_cmod_verbose
    rw [List.filterMap_eq_nil_iff.mpr (fun a ha => (hall a ha).2)]
  refine ⟨rfl, rfl, hmt, hmv, by simp [tab_seg, hmt], by simp [verbose_seg, hmv],
    ?_, ?_⟩
  · rw [nvim_parse_cmd_tab_report, htv]; rfl
  · rw [nvim_parse_cmd_verbose_report, hvv]; rfl

/-- Witness for C6 with both sentinels set and everything else
defaulted (the resulting modifiers are all unset). -/
theorem claim_C6_tab_sentinel_witness :
    ({ tab := some (.integer (-1)), verbose := some (.integer (-1)) } :
      ModsInput).tab = some (.integer (-1)) ∧
    ({ tab := some (.integer (-1)), verbose := some (.integer (-1)) } :
      ModsInput).verbose = some (.integer (-1)) ∧
    process_mods {}
      { tab := some (.integer (-1)), verbose := some (.integer (-1)) } =
      .ok {} ∧
    (process_tab (some (.integer (-1))) = .ok 0 ∧
     process_verbose (some (.integer (-1))) = .ok 0 ∧
     ({} : CmdMod).tab = 0 ∧ ({} : CmdMod).verbose = 0 ∧
     tab_seg {} = [] ∧ verbose_seg {} = [] ∧
     nvim_parse_cmd_tab_report (parsed_cmod_tab (mod_segments {})) = -1 ∧
     nvim_parse_cmd_verbose_report (parsed_cmod_verbose (mod_segments {})) = -1) :=
  ⟨rfl, rfl, rfl, claim_C6_tab_sentinel {}
    { tab := some (.integer (-1)), verbose := some (.integer (-1)) } {}
    rfl rfl rfl⟩

theorem check_range_err (argt : Argt) (addr : AddrType) (ext : Externals)
    (o : ApiObject) (h : argt.range = false) :
    check_range argt addr ext (some o) = .error "Command cannot accept a range" := by
  simp [check_range, h]

theorem check_count_err (argt : Argt) (ext : Externals) (p : Int × Int)
    (o : ApiObject) (h : argt.count = false) :
    check_count argt ext p (some o) = .error "Command cannot accept a count" := by
  simp [check_count, h]

/-- C3: a descriptor supplying both an explicit range and an explicit
count, against a contract that does not grant both EX_RANGE and
EX_COUNT together (i.e. treats them as mutually exclusive), fails
validation, and `build_cmdline_str` is never reached: the whole
`nvim_cmd` front end produces no serialized command line. -/
theorem claim_C3_range_count_exclusive (d : CmdDict)
    (resolve : String → Option ResolvedCmd) (ext : Externals)
    (hr : d.range.isSome = true) (hc : d.count.isSome = true)
    (hx : ∀ s r, resolve s = some r →
      ¬(r.argt.range = true ∧ r.argt.count = true)) :
    (nvim_cmd_validate d resolve ext).toOption = none ∧
    (nvim_cmd_run d resolve ext).toOption = none := by
  suffices hv : ∀ v, nvim_cmd_validate d resolve ext ≠ .ok v by
    cases hres : nvim_cmd_validate d resolve ext with
    | error e =>
      constructor <;> simp [nvim_cmd_run, hres, Except.map, Except.toOption]
    | ok v => exact absurd hres (hv v)
  intro v hok
  obtain ⟨ro, hro⟩ := Option.isSome_iff_exists.mp hr
  obtain ⟨co, hco⟩ := Option.isSome_iff_exists.mp hc
  unfold nvim_cmd_validate at hok
  rcases hcmd : d.cmd with _ | obj
  · rw [hcmd] at hok; simp [bind, Except.bind] at hok
  rw [hcmd] at hok
  cases obj
  case str s =>
    by_cases hs : s = ""
    · simp [hs, bind, Except.bind] at hok
    · simp only [hs, if_false, bind, Except.bind] at hok
      rcases hres : resolve s with _ | r
      · rw [hres] at hok; simp [bind, Except.bind] at hok
      rw [hres] at hok
      by_cases hni : r.ni = true
      · simp [hni, bind, Except.bind] at hok
      · have hni2 : r.ni = false := by simpa using hni
        cases hargs : check_args r.argt d.args with
        | error e => simp [hni2, hargs, bind, Except.bind] at hok
        | ok args =>
          have hnotboth := hx s r hres
          by_cases hrg : r.argt.range = true
          · have hcnt : r.argt.count = false := by
              cases hcv : r.argt.count
              · rfl
              · exact absurd ⟨hrg, hcv⟩ hnotboth
            cases hrng : check_range r.argt (ext.addr_of args.head?) ext
                d.range with
            | error e =>
              simp [hni2, hargs, hrng, bind, Except.bind] at hok
            | ok rl =>
              rw [hco] at hok
              simp [hni2, hargs, hrng, bind, Except.bind,
                check_count_err r.argt ext _ co hcnt] at hok
          · have hrg2 : r.argt.range = false := by simpa using hrg
            rw [hro] at hok
            simp [hni2, hargs, bind, Except.bind,
              check_range_err r.argt (ext.addr_of args.head?) ext ro hrg2] at hok
  all_goals simp [bind, Except.bind] at hok

/-- Witness for C3: a range-accepting, count-rejecting contract with
both keys supplied. -/
theorem claim_C3_range_count_exclusive_witness :
    ({ cmd := some (.str "MyCmd"), range := some (.array [.integer 1]),
       count := some (.integer 2) } : CmdDict).range.isSome = true ∧
    ({ cmd := some (.str "MyCmd"), range := some (.array [.integer 1]),
       count := some (.integer 2) } : CmdDict).count.isSome = true ∧
    ((nvim_cmd_validate
        { cmd := some (.str "MyCmd"), range := some (.array [.integer 1]),
          count := some (.integer 2) } res_fix ext_fix).toOption = none ∧
     (nvim_cmd_run
        { cmd := some (.str "MyCmd"), range := some (.array [.integer 1]),
          count := some (.integer 2) } res_fix ext_fix).toOption = none) :=
  ⟨rfl, rfl, claim_C3_range_count_exclusive _ res_fix ext_fix rfl rfl
    (by intro s r h; simp [res_fix] at h; subst h; decide)⟩

/-- C2 counterexample: a second define call for an existing name that
does NOT pass force=true — it omits force entirely — succeeds and
overwrites, because `create_user_command` defaults force to true
(command.c line 1150); the claim as stated ("does not pass force=true
⇒ fails") is therefore false for the omitted-force case. -/
theorem claim_C2_counterexample :
    (create_user_command [("Hello", entry_fix)] "Hello" (.str "echo2") {}).2 =
      none ∧
    ((create_user_command [("Hello", entry_fix)] "Hello"
        (.str "echo2") {}).1.lookup "Hello" =
      some { rep := "echo2", argt := {}, defValue := -1, addr := .addrNone }) :=
  ⟨rfl, rfl⟩

/-- C2 (amended): redefining an existing user command with
force = false fails with the name-collision error and leaves the
registry unchanged; with force = true (or force omitted, which
defaults to true) it succeeds and overwrites the entry. -/
theorem claim_C2_redefine (reg : Registry) (name : String) (e : UserCmdEntry)
    (cmdO : ApiObject) (opts : UserCmdOpts)
    (hex : (reg.lookup name).isSome = true) :
    uc_add_command reg name e false = .error "Failed to create user command" ∧
    uc_add_command reg name e true =
      .ok ((name, e) :: reg.filter (fun p => p.1 ≠ name)) ∧
    (((name, e) :: reg.filter (fun p => p.1 ≠ name)).lookup name = some e) ∧
    (opts.force = some false →
      (create_user_command reg name cmdO opts).1 = reg ∧
      (create_user_command reg name cmdO opts).2.isSome = true) := by
  refine ⟨by simp [uc_add_command, hex], by simp [uc_add_command], ?_, ?_⟩
  · simp [List.lookup]
  · intro hf
    have huc : ∀ e2 : UserCmdEntry, uc_add_command reg name e2 false =
        .error "Failed to create user command" := fun e2 => by
      simp [uc_add_command, hex]
    have hcore : ∀ r2, create_user_command_core reg name cmdO opts ≠ .ok r2 := by
      intro r2 hok
      unfold create_user_command_core at hok
      rw [hf] at hok
      simp only [Option.getD_some] at hok
      split at hok
      · simp at hok
      · split at hok
        · simp at hok
        · split at hok
          · simp at hok
          · split at hok
            · simp at hok
            · split at hok
              · simp at hok
              · split at hok
                · simp at hok
                · split at hok
                  · simp at hok
                  · split at hok
                    · simp at hok
                    · split at hok
                      · simp at hok
                      · split at hok
                        · exact Except.noConfusion ((huc _).symm.trans hok)
                        · exact Except.noConfusion ((huc _).symm.trans hok)
                        · simp at hok
    cases hco : create_user_command_core reg name cmdO opts with
    | ok r2 => exact absurd hco (hcore r2)
    | error e2 => simp [create_user_command, hco]

/-- Witness for C2 on a one-entry registry holding "Hello". -/
theorem claim_C2_redefine_witness :
    (([("Hello", entry_fix)] : Registry).lookup "Hello").isSome = true ∧
    (uc_add_command [("Hello", entry_fix)] "Hello" entry_fix false =
        .error "Failed to create user command" ∧
     uc_add_command [("Hello", entry_fix)] "Hello" entry_fix true =
        .ok (("Hello", entry_fix) ::
          ([("Hello", entry_fix)] : Registry).filter (fun p => p.1 ≠ "Hello")) ∧
     ((("Hello", entry_fix) ::
        ([("Hello", entry_fix)] : Registry).filter
          (fun p => p.1 ≠ "Hello")).lookup "Hello" = some entry_fix) ∧
     (({ force := some false } : UserCmdOpts).force = some false →
       (create_user_command [("Hello", entry_fix)] "Hello" (.str "x")
          { force := some false }).1 = [("Hello", entry_fix)] ∧
       (create_user_command [("Hello", entry_fix)] "Hello" (.str "x")
          { force := some false }).2.isSome = true)) :=
  ⟨rfl, claim_C2_redefine [("Hello", entry_fix)] "Hello" entry_fix (.str "x")
    { force := some false } rfl⟩
